import Mathlib

/-!
Verification development for the whisper_api_container repository.

The definitions below are a shallow embedding of the Python sources:
  * `src/app/utils.py`   — `ResourceManager` (admission control),
  * `src/app/transcriber.py` — `WhisperTranscriber.transcribe`,
  * `src/app/audio.py`   — `AudioProcessor.process_audio` / `_process_audio_file`,
  * `src/app/main.py`    — the `/transcribe` handler and the
    `/stream/{session_id}` WebSocket receive loop.

Machine integers are modelled as `Nat`/`Int`; Python floats that only ever
carry exact ratios of integers are modelled as `ℚ`.  Byte strings are
`List Nat` (one entry per byte).  Exceptions are modelled as `Except`
values, with the `except Exception` blocks of the Python code translated
into explicit `match`es on the error component.
-/

/-- An HTTP error as raised through FastAPI's `HTTPException`.
`error` is the machine-readable `"error"` field when the `detail` payload is
a dict (e.g. `{"error": "stt-stream-failed", "message": ...}`); it is `none`
when the `detail` is a bare string. -/
structure HTTPDetail where
  status : Nat
  error : Option String
  message : String
deriving DecidableEq, Repr

/-- Python's `str(HTTPException)` renders as `"{status_code}: {detail}"`;
we keep the status code and the message part of the detail. -/
def strOfHTTPDetail (e : HTTPDetail) : String :=
  toString e.status ++ ": " ++ e.message

/-! Section: src/app/utils.py — ResourceManager -/

/-- State of `utils.ResourceManager`: the configured limits and the
`_current_requests` counter. -/
structure ResourceManager where
  max_memory : ℚ
  max_concurrent : Nat
  current_requests : Nat
deriving DecidableEq, Repr

/-- Embedding of `ResourceManager.check_resources` (src/app/utils.py:30-73).
`memory_usage` stands for the instantaneous `get_memory_usage()` snapshot.
Raises 503 with detail `{"error": "stt-stream-failed", "message": "Server is
overloaded"}` when memory exceeds the cap, 503 with message "Too many
concurrent requests" when the concurrency cap is reached, and otherwise
increments `_current_requests` and returns. -/
def check_resources (memory_usage : ℚ) (rm : ResourceManager) :
    Except HTTPDetail ResourceManager :=
  if memory_usage > rm.max_memory then
    .error ⟨503, some "stt-stream-failed", "Server is overloaded"⟩
  else if rm.current_requests ≥ rm.max_concurrent then
    .error ⟨503, some "stt-stream-failed", "Too many concurrent requests"⟩
  else
    .ok { rm with current_requests := rm.current_requests + 1 }

/-- Embedding of `ResourceManager.release_resources` (src/app/utils.py:75-78):
decrement the counter, guarded against going below zero. -/
def release_resources (rm : ResourceManager) : ResourceManager :=
  if rm.current_requests > 0 then
    { rm with current_requests := rm.current_requests - 1 }
  else rm

/-- A sequence of `n` successive `acquire` attempts (each one a call to
`check_resources`), all observing the same memory snapshot.  Returns the
final manager state and how many of the calls succeeded.  In the asyncio
runtime the check-and-increment of `check_resources` contains no `await`,
so concurrent callers are serialized exactly like this fold. -/
def acquire_seq (memory_usage : ℚ) (rm : ResourceManager) : Nat → ResourceManager × Nat
  | 0 => (rm, 0)
  | n + 1 =>
    let p := acquire_seq memory_usage rm n
    match check_resources memory_usage p.1 with
    | .ok rm' => (rm', p.2 + 1)
    | .error _ => (p.1, p.2)

/-! Section: src/app/transcriber.py — WhisperTranscriber -/

/-- Embedding of `WhisperTranscriber.supported_languages` (src/app/transcriber.py:17-20). -/
def supported_languages : List String :=
  ["en", "es", "fr", "de", "it", "pt", "nl", "pl", "ru",
   "zh", "ja", "ko", "ar", "hi", "tr"]

/-- One segment of a transcription (src/app/transcriber.py:102-108).
`stop` is the Python key `"end"` (a Lean keyword). -/
structure Segment where
  text : String
  start : ℚ
  stop : ℚ
deriving DecidableEq, Repr

/-- What the external whisper model returns from `self.model.transcribe`:
a dict with `"text"`, optionally `"language"`, and `"segments"`. -/
structure EngineResult where
  text : String
  language : Option String
  segments : List Segment
deriving DecidableEq, Repr

/-- The response dict built by `WhisperTranscriber.transcribe`
(src/app/transcriber.py:99-111). -/
structure TranscriptionResult where
  text : String
  language : String
  segments : List Segment
  duration : ℚ
deriving DecidableEq, Repr

/-- The `options` dict of `WhisperTranscriber.transcribe`
(src/app/transcriber.py:88-93): `if language:` (Python truthiness, so the
empty string counts as absent), then keep the hint only when it is in
`supported_languages`; otherwise it is only logged and dropped. -/
def buildOptions (language : Option String) : Option String :=
  match language with
  | none => none
  | some l =>
    if l = "" then none
    else if l ∈ supported_languages then some l else none

/-- Embedding of `WhisperTranscriber.transcribe` (src/app/transcriber.py:71-113).
`model` is the external inference engine collaborator
(`self.model.transcribe`), a function of the audio bytes and the language
option.  The Python maps each segment dict to the same three fields, and
sets `"duration": len(audio) / 16000`. -/
def transcribe (model : List Nat → Option String → EngineResult)
    (audio : List Nat) (language : Option String) : TranscriptionResult :=
  let options := buildOptions language
  let result := model audio options
  { text := result.text
    language := result.language.getD "unknown"
    segments := result.segments
    duration := (audio.length : ℚ) / 16000 }

/-! Section: src/app/audio.py — AudioProcessor (HTTP upload path) -/

/-- Embedding of `AudioProcessor._process_audio_file` (src/app/audio.py:91-135).
`normalized` is the outcome of the external ffmpeg conversion: `.ok` with
the produced 16 kHz mono PCM bytes, or `.error` when ffmpeg rejects the
container/codec, in which case the method raises
`HTTPException(400, "Audio format not supported")`. -/
def process_audio_file (normalized : Except Unit (List Nat)) :
    Except HTTPDetail (List Nat) :=
  match normalized with
  | .ok pcm => .ok pcm
  | .error _ => .error ⟨400, none, "Audio format not supported"⟩

/-- Embedding of `AudioProcessor.process_audio` (src/app/audio.py:23-54).  Its
`except Exception` block catches every exception — including the
`HTTPException(400, ...)` raised by `_process_audio_file` — and re-raises
`HTTPException(500, str(e))`. -/
def process_audio (normalized : Except Unit (List Nat)) :
    Except HTTPDetail (List Nat) :=
  match process_audio_file normalized with
  | .ok pcm => .ok pcm
  | .error e => .error ⟨500, none, strOfHTTPDetail e⟩

/-! Section: src/app/main.py — POST /transcribe -/

/-- The `except Exception` block of the `/transcribe` handler
(src/app/main.py:120-128): every exception, HTTPException included, is
re-raised as `HTTPException(500, {"error": "stt-stream-failed",
"message": str(e)})`. -/
def wrap500 (e : HTTPDetail) : HTTPDetail :=
  ⟨500, some "stt-stream-failed", strOfHTTPDetail e⟩

/-- Observable outcome of one `/transcribe` request: the response,
the resource-manager state after the handler has fully completed
(background tasks included — none of them touch the counter), and
whether the transcription model was invoked. -/
structure TranscribeOutcome where
  response : Except HTTPDetail TranscriptionResult
  rm : ResourceManager
  modelInvoked : Bool

/-- The `/transcribe` handler `transcribe_audio` (src/app/main.py:70-128),
for a request with no `X-Model` header.  `memory_usage` is the memory
snapshot seen by `check_resources`, `normalized` the ffmpeg outcome for the
uploaded file, `model` the inference engine, `x_language` the `X-Language`
header.  The handler body is one `try` whose `except Exception` is
`wrap500`; no path calls `release_resources`. -/
def transcribe_audio (rm : ResourceManager) (memory_usage : ℚ)
    (normalized : Except Unit (List Nat))
    (model : List Nat → Option String → EngineResult)
    (x_language : Option String) : TranscribeOutcome :=
  match check_resources memory_usage rm with
  | .error e => ⟨.error (wrap500 e), rm, false⟩
  | .ok rm' =>
    match process_audio normalized with
    | .error e => ⟨.error (wrap500 e), rm', false⟩
    | .ok audio_data =>
      ⟨.ok (transcribe model audio_data x_language), rm', true⟩

/-! Section: voice-activity detection.

`AudioProcessor.detect_speech` is called from the WebSocket receive loop
(src/app/main.py:211,216) but is not defined in src/app/audio.py. -/

/-- Decode one little-endian pair of bytes as a 16-bit signed sample. -/
def toSigned16 (lo hi : Nat) : Int :=
  let u := lo + 256 * hi
  if u < 32768 then (u : Int) else (u : Int) - 65536

/-- Interpret a byte string as consecutive 16-bit signed little-endian
samples (any odd trailing byte is ignored). -/
def bytesToSamples : List Nat → List Int
  | lo :: hi :: rest => toSigned16 lo hi :: bytesToSamples rest
  | _ => []

/-- Sum of the absolute values of a sample list. -/
def absSum (samples : List Int) : Nat :=
  (samples.map Int.natAbs).sum

/-- Mean absolute sample value normalized by 32768 (0 for an empty chunk). -/
def normalized_energy (chunk : List Nat) : ℚ :=
  let samples := bytesToSamples chunk
  if samples.length = 0 then 0
  else ((absSum samples : ℚ) / (samples.length : ℚ)) / 32768

/-- Modelled from the spec: `AudioProcessor.detect_speech` is invoked from
the session loop in src/app/main.py but absent from src/app/audio.py, so it
is reconstructed from §4.2 of the specification: interpret the chunk as
16-bit signed samples, compute the mean absolute value, normalize by the
maximum representable magnitude (32768), and return
`normalized_energy > threshold` with the default threshold 0.001. -/
def detect_speech (chunk : List Nat) : Bool :=
  decide (normalized_energy chunk > 1 / 1000)

/-! Section: src/app/main.py — WebSocket /stream/session_id -/

/-- Model of Python's `str.strip()`: drop whitespace characters from both
ends of the character list.  (Python strips a slightly larger unicode
whitespace class; `Char.isWhitespace` covers the characters that occur in
transcripts here.) -/
def pyStrip (s : String) : String :=
  ⟨((s.data.dropWhile Char.isWhitespace).reverse.dropWhile Char.isWhitespace).reverse⟩

/-- JSON events sent by the WebSocket endpoint (src/app/main.py:185-274). -/
inductive WSEvent where
  | runStart : WSEvent
  | sttStart : WSEvent
  | vadStart : WSEvent
  | vadEnd : WSEvent
  | sttEnd : String → String → WSEvent
  | error : String → String → WSEvent
deriving DecidableEq, Repr

/-- Local state of the WebSocket receive loop: `audio_buffer`,
`vad_active`, and the Python local variable `result` (which is unbound —
`none` — until the first successful transcription). -/
structure WSState where
  audio_buffer : List Nat
  vad_active : Bool
  result : Option TranscriptionResult
deriving DecidableEq, Repr

/-- The inline flush threshold `16000 * 2` of src/app/main.py:223,
commented there as "2 seconds of audio". -/
def flushThresholdBytes : Nat := 16000 * 2

/-- The flush guard of src/app/main.py:223:
`len(audio_buffer) >= 16000 * 2 and vad_active`. -/
def shouldFlush (bufLen : Nat) (vad : Bool) : Bool :=
  decide (bufLen ≥ flushThresholdBytes) && vad

/-- One iteration of the `while True` receive loop
(src/app/main.py:198-246) on a received binary frame `chunk`.
`engine` is `transcriber.transcribe` viewed as a collaborator that either
returns a result or raises (`.error` with the exception message).
Returns the new state, the events sent during the iteration, and whether
the loop continues (`false` exactly on the length-1 end marker). -/
def wsProcessChunk (engine : List Nat → Except String TranscriptionResult)
    (st : WSState) (chunk : List Nat) : WSState × List WSEvent × Bool :=
  if chunk.length = 1 then
    (st, [], false)
  else
    let payload := chunk.drop 1
    let buffer1 := st.audio_buffer ++ payload
    let speech := detect_speech payload
    let vadPair : Bool × List WSEvent :=
      if ¬ st.vad_active ∧ speech then (true, [.vadStart])
      else if st.vad_active ∧ ¬ speech then (false, [.vadEnd])
      else (st.vad_active, [])
    if shouldFlush buffer1.length vadPair.1 then
      match engine buffer1 with
      | .ok r =>
        (⟨[], vadPair.1, some r⟩,
         vadPair.2 ++
           (if pyStrip r.text = "" then [] else [.sttEnd (pyStrip r.text) r.language]),
         true)
      | .error msg =>
        (⟨buffer1, vadPair.1, st.result⟩,
         vadPair.2 ++ [.error "stt-stream-failed" msg], true)
    else
      (⟨buffer1, vadPair.1, st.result⟩, vadPair.2, true)

/-- The receive loop run over a list of incoming frames, stopping early
when an iteration reports termination (end marker). -/
def wsLoop (engine : List Nat → Except String TranscriptionResult) :
    WSState → List (List Nat) → WSState × List WSEvent
  | st, [] => (st, [])
  | st, chunk :: rest =>
    let step := wsProcessChunk engine st chunk
    if step.2.2 then
      let next := wsLoop engine step.1 rest
      (next.1, step.2.1 ++ next.2)
    else (step.1, step.2.1)

/-- The code after the receive loop (src/app/main.py:248-274): drain any
remaining buffered audio, then — `if not audio_buffer or not
result["text"].strip():` — send the `stt-no-text-recognized` notice.  When
the buffer is non-empty and `result` was never bound, that line raises
`NameError`, which the outer `except Exception` turns into an
`stt-stream-failed` error event. -/
def wsFinale (engine : List Nat → Except String TranscriptionResult)
    (st : WSState) : List WSEvent :=
  let afterDrain : WSState × List WSEvent :=
    if st.audio_buffer = [] then (st, [])
    else
      match engine st.audio_buffer with
      | .ok r =>
        ({ st with result := some r },
         if pyStrip r.text = "" then [] else [.sttEnd (pyStrip r.text) r.language])
      | .error msg => (st, [.error "stt-stream-failed" msg])
  let st' := afterDrain.1
  let notice : List WSEvent :=
    if st'.audio_buffer = [] then
      [.error "stt-no-text-recognized" "No speech detected"]
    else
      match st'.result with
      | some r =>
        if pyStrip r.text = "" then
          [.error "stt-no-text-recognized" "No speech detected"]
        else []
      | none => [.error "stt-stream-failed" "NameError: name result is not defined"]
  afterDrain.2 ++ notice

/-- The whole WebSocket session (src/app/main.py:170-290) on the
no-disconnect path: `run-start` and `stt-start`, then the receive loop over
the given frames, then the post-loop drain and final notice. -/
def websocket_endpoint (engine : List Nat → Except String TranscriptionResult)
    (frames : List (List Nat)) : List WSEvent :=
  let run := wsLoop engine ⟨[], false, none⟩ frames
  .runStart :: .sttStart :: (run.2 ++ wsFinale engine run.1)

/-! Section: concrete instances used by the theorems below. -/

/-- A concrete 16-bit little-endian PCM stream: `n` copies of the sample
16384 (half of full scale), i.e. the byte pairs `0, 64`. -/
def loudPCM (n : Nat) : List Nat := (List.replicate n [0, 64]).flatten

/-- A stub inference collaborator that always transcribes to "hello". -/
def rHello : TranscriptionResult := ⟨"hello", "en", [], 0⟩

/-- Engine collaborator used in the concrete session scenarios below. -/
def engineHello : List Nat → Except String TranscriptionResult :=
  fun _ => .ok rHello

/-- A resource manager with the default caps (8192 MB, 5 concurrent) and
no active request. -/
def rm0 : ResourceManager := ⟨8192, 5, 0⟩

/-- A resource manager with the default caps whose concurrency cap is
fully used. -/
def rmFull : ResourceManager := ⟨8192, 5, 5⟩

/-- A stub inference engine for the HTTP path. -/
def engineStub : List Nat → Option String → EngineResult :=
  fun _ _ => ⟨"ok", some "en", []⟩

/-! Section: helper lemmas. -/

/-- Characterization of `detect_speech` without the rational mean: the
normalized mean absolute energy exceeds 1/1000 exactly when
`1000 * (sum of absolute sample values) > 32768 * (number of samples)`. -/
lemma detect_speech_iff (chunk : List Nat) :
    detect_speech chunk = true ↔
      1000 * absSum (bytesToSamples chunk) > 32768 * (bytesToSamples chunk).length := by
  rw [show detect_speech chunk = decide (normalized_energy chunk > 1 / 1000) from rfl,
    decide_eq_true_iff,
    show normalized_energy chunk =
      (if (bytesToSamples chunk).length = 0 then 0
       else ((absSum (bytesToSamples chunk) : ℚ) /
          ((bytesToSamples chunk).length : ℚ)) / 32768) from rfl]
  by_cases hlen : (bytesToSamples chunk).length = 0
  · have hnil : bytesToSamples chunk = [] := List.length_eq_zero.mp hlen
    rw [if_pos hlen, hnil]
    norm_num [absSum]
  · have hlenpos : 0 < ((bytesToSamples chunk).length : ℚ) := by
      exact_mod_cast Nat.pos_of_ne_zero hlen
    rw [if_neg hlen, gt_iff_lt, gt_iff_lt, div_div,
      div_lt_div_iff₀ (by norm_num) (by positivity), one_mul]
    rw [show ((bytesToSamples chunk).length : ℚ) * 32768 =
          ((32768 * (bytesToSamples chunk).length : ℕ) : ℚ) by push_cast; ring,
      show (absSum (bytesToSamples chunk) : ℚ) * 1000 =
          ((1000 * absSum (bytesToSamples chunk) : ℕ) : ℚ) by push_cast; ring]
    exact Nat.cast_lt

lemma loudPCM_succ (n : Nat) : loudPCM (n + 1) = 0 :: 64 :: loudPCM n := by
  simp [loudPCM, List.replicate_succ]

lemma loudPCM_length (n : Nat) : (loudPCM n).length = 2 * n := by
  induction n with
  | zero => rfl
  | succ n ih => rw [loudPCM_succ]; simp [ih]; ring

lemma bytesToSamples_loudPCM (n : Nat) :
    bytesToSamples (loudPCM n) = List.replicate n 16384 := by
  induction n with
  | zero => rfl
  | succ n ih =>
    rw [loudPCM_succ, bytesToSamples, ih, List.replicate_succ]
    norm_num [toSigned16]

lemma absSum_replicate_16384 (n : Nat) :
    absSum (List.replicate n 16384) = n * 16384 := by
  simp [absSum, List.map_replicate, List.sum_replicate, smul_eq_mul]

lemma detect_speech_loudPCM (n : Nat) (h : 0 < n) :
    detect_speech (loudPCM n) = true := by
  have h2 := detect_speech_iff (loudPCM n)
  rw [bytesToSamples_loudPCM, absSum_replicate_16384, List.length_replicate] at h2
  exact h2.mpr (by omega)

lemma pyStrip_hello : pyStrip "hello" = "hello" := by decide

/-- Symbolic evaluation of one loop iteration on a first frame whose
payload is exactly 32000 bytes of detected speech: the VAD edge fires,
the buffer reaches the flush guard, the engine is invoked, and the buffer
is cleared. -/
lemma wsProcessChunk_first_flush (engine : List Nat → Except String TranscriptionResult)
    (payload : List Nat) (r : TranscriptionResult) (b : Nat)
    (hlen : payload.length = 32000)
    (hdet : detect_speech payload = true)
    (heng : engine payload = .ok r)
    (htrim : ¬ pyStrip r.text = "") :
    wsProcessChunk engine ⟨[], false, none⟩ (b :: payload) =
      (⟨[], true, some r⟩, [.vadStart, .sttEnd (pyStrip r.text) r.language], true) := by
  unfold wsProcessChunk
  simp [hlen, hdet, heng, htrim, shouldFlush, flushThresholdBytes]

/-- Evaluation of the receive loop on the concrete C7 scenario: one loud
2-second-equivalent frame (1 tag byte + 32000 PCM bytes), then the
end-of-stream marker. -/
lemma wsLoop_hello_scenario :
    wsLoop engineHello ⟨[], false, none⟩ [99 :: loudPCM 16000, [1]] =
      (⟨[], true, some rHello⟩, [.vadStart, .sttEnd "hello" "en"]) := by
  have hstep := wsProcessChunk_first_flush engineHello (loudPCM 16000) rHello 99
    (by rw [loudPCM_length]) (detect_speech_loudPCM 16000 (by norm_num)) rfl
    (by rw [show rHello.text = "hello" from rfl, pyStrip_hello]; decide)
  have hmarker : wsProcessChunk engineHello ⟨[], true, some rHello⟩ [1] =
      (⟨[], true, some rHello⟩, [], false) := by
    unfold wsProcessChunk
    simp
  rw [show rHello.text = "hello" from rfl, pyStrip_hello,
    show rHello.language = "en" from rfl] at hstep
  simp [wsLoop, hstep, hmarker]

/-- Full characterization of a run of `n` acquire attempts from a manager
with no active request, memory below the cap: the counter tracks
`min n cap` and so does the success count. -/
lemma acquire_seq_spec (mm : ℚ) (mc : Nat) (mem : ℚ) (hmem : ¬ mem > mm) (n : Nat) :
    acquire_seq mem ⟨mm, mc, 0⟩ n = (⟨mm, mc, min n mc⟩, min n mc) := by
  induction n with
  | zero => simp [acquire_seq]
  | succ n ih =>
    by_cases hc : mc ≤ n
    · have h1 : min n mc = mc := by omega
      have h2 : min (n + 1) mc = mc := by omega
      simp only [acquire_seq, ih, h1, h2]
      simp [check_resources, hmem]
    · have h1 : min n mc = n := by omega
      have h2 : min (n + 1) mc = n + 1 := by omega
      simp only [acquire_seq, ih, h1, h2]
      simp [check_resources, hmem, show ¬ n ≥ mc by omega]

/-! Section: the claims. -/

/-- C1: the claim states that every session acquires an admission ticket
before any work and releases it exactly once on termination, so that after
all sessions end the counter is back at its baseline.  The code violates
this: a successful `/transcribe` request increments the counter through
`check_resources` but no path of `transcribe_audio` ever calls
`release_resources`, so after one successful request from baseline 0 the
counter remains 1. -/
theorem c1_ticket_leaked_on_success :
    (transcribe_audio rm0 100 (.ok [0, 0, 0, 0]) engineStub none).modelInvoked = true ∧
    rm0.current_requests = 0 ∧
    (transcribe_audio rm0 100 (.ok [0, 0, 0, 0]) engineStub none).rm.current_requests = 1 :=
  ⟨rfl, rfl, rfl⟩

/-- C2: the claim states the interactive flush threshold is 2 seconds of
16-bit 16 kHz audio, i.e. 16000 × 2 × 2 = 64000 bytes.  The code's guard
(src/app/main.py:223) fires at `16000 * 2 = 32000` buffered bytes — one
second of audio — despite its own "2 seconds of audio" comment. -/
theorem c2_flush_fires_at_32000_bytes :
    shouldFlush (16000 * 2) true = true ∧
    flushThresholdBytes = 16000 * 2 ∧
    flushThresholdBytes < 16000 * 2 * 2 :=
  ⟨rfl, rfl, by norm_num [flushThresholdBytes]⟩

/-- C3: `detect_speech` interprets the chunk as 16-bit signed samples,
computes the mean absolute value normalized by 32768, and returns true
exactly when that energy exceeds 1/1000; it is a pure function of the
chunk bytes (identical bytes give the identical boolean). -/
theorem c3_detect_speech_energy_rule (chunk c2 : List Nat) (h : c2 = chunk) :
    detect_speech c2 = detect_speech chunk ∧
    (detect_speech chunk = true ↔
      1000 * absSum (bytesToSamples chunk) > 32768 * (bytesToSamples chunk).length) :=
  ⟨by rw [h], detect_speech_iff chunk⟩

theorem c3_detect_speech_energy_rule_witness :
    ([0, 64] = ([0, 64] : List Nat)) ∧
      (detect_speech [0, 64] = detect_speech [0, 64] ∧
        (detect_speech [0, 64] = true ↔
          1000 * absSum (bytesToSamples [0, 64]) > 32768 * (bytesToSamples [0, 64]).length)) :=
  ⟨rfl, c3_detect_speech_energy_rule [0, 64] [0, 64] rfl⟩

/-- C4: the claim states an unsupported container/codec yields HTTP 400
with an `UnsupportedAudioFormat` code.  The code does raise
`HTTPException(400, "Audio format not supported")`, but `process_audio`'s
blanket `except Exception` rewraps it as a 500, and the handler's blanket
`except` wraps it again into a 500 with code `stt-stream-failed`; the
client therefore sees 500, not 400.  The model is indeed never invoked. -/
theorem c4_unsupported_format_surfaces_as_500 :
    (transcribe_audio rm0 100 (.error ()) engineStub none).response =
      .error ⟨500, some "stt-stream-failed", "500: 400: Audio format not supported"⟩ ∧
    (transcribe_audio rm0 100 (.error ()) engineStub none).modelInvoked = false :=
  ⟨rfl, rfl⟩

/-- C5 counterexample: a `/transcribe` call arriving with the concurrency
cap already reached is answered with HTTP 500 carrying code
`stt-stream-failed`, not with the claimed 503 carrying `overloaded` or
`too-many-requests`. -/
theorem c5_rejection_not_503_counterexample :
    (transcribe_audio rmFull 100 (.ok [0, 0]) engineStub none).response =
      .error ⟨500, some "stt-stream-failed", "503: Too many concurrent requests"⟩ ∧
    (500 : Nat) ≠ 503 :=
  ⟨rfl, by decide⟩

/-- C5 amended: when admission is refused, `check_resources` raises HTTP
503 whose machine-readable code is `stt-stream-failed` and whose message
distinguishes the reason ("Server is overloaded" vs "Too many concurrent
requests"); the `/transcribe` handler's blanket exception handler rewraps
this into HTTP 500 with code `stt-stream-failed`.  The rejection does
happen before any audio processing: the model is not invoked, the counter
is untouched, and the response does not depend on the uploaded audio. -/
theorem c5_admission_rejection_amended (rm : ResourceManager) (mem : ℚ)
    (normalized : Except Unit (List Nat))
    (model : List Nat → Option String → EngineResult) (lang : Option String)
    (h : mem > rm.max_memory ∨
      (¬ mem > rm.max_memory ∧ rm.current_requests ≥ rm.max_concurrent)) :
    (∃ e : HTTPDetail, check_resources mem rm = .error e ∧ e.status = 503 ∧
        e.error = some "stt-stream-failed" ∧
        (e.message = "Server is overloaded" ∨
          e.message = "Too many concurrent requests")) ∧
    (transcribe_audio rm mem normalized model lang).modelInvoked = false ∧
    (transcribe_audio rm mem normalized model lang).rm = rm ∧
    transcribe_audio rm mem normalized model lang =
      transcribe_audio rm mem (.error ()) model lang ∧
    (∃ e : HTTPDetail,
      (transcribe_audio rm mem normalized model lang).response = .error e ∧
      e.status = 500 ∧ e.error = some "stt-stream-failed") := by
  rcases h with hmem | ⟨hmem, hconc⟩
  · have hcheck : check_resources mem rm =
        .error ⟨503, some "stt-stream-failed", "Server is overloaded"⟩ := by
      unfold check_resources
      rw [if_pos hmem]
    refine ⟨⟨_, hcheck, rfl, rfl, Or.inl rfl⟩, ?_, ?_, ?_, ?_⟩ <;>
      unfold transcribe_audio <;> rw [hcheck]
    exact ⟨_, rfl, rfl, rfl⟩
  · have hcheck : check_resources mem rm =
        .error ⟨503, some "stt-stream-failed", "Too many concurrent requests"⟩ := by
      unfold check_resources
      rw [if_neg hmem, if_pos hconc]
    refine ⟨⟨_, hcheck, rfl, rfl, Or.inr rfl⟩, ?_, ?_, ?_, ?_⟩ <;>
      unfold transcribe_audio <;> rw [hcheck]
    exact ⟨_, rfl, rfl, rfl⟩

theorem c5_admission_rejection_amended_witness :
    ((100:ℚ) > rmFull.max_memory ∨
      (¬ (100:ℚ) > rmFull.max_memory ∧
        rmFull.current_requests ≥ rmFull.max_concurrent)) ∧
    (transcribe_audio rmFull 100 (.ok [0, 0]) engineStub none).modelInvoked = false :=
  ⟨Or.inr ⟨by norm_num [rmFull], by norm_num [rmFull]⟩,
   (c5_admission_rejection_amended rmFull 100 (.ok [0, 0]) engineStub none
     (Or.inr ⟨by norm_num [rmFull], by norm_num [rmFull]⟩)).2.1⟩

/-- C6: starting from no active request with memory below the cap, out of
`N` acquire attempts exactly `min N cap` succeed, and after every prefix of
the sequence the number of active admissions is at most the cap. -/
theorem c6_min_of_concurrent_acquires (rm : ResourceManager) (mem : ℚ) (N : Nat)
    (hmem : ¬ mem > rm.max_memory) (h0 : rm.current_requests = 0) :
    (acquire_seq mem rm N).2 = min N rm.max_concurrent ∧
    ∀ n : Nat, (acquire_seq mem rm n).1.current_requests ≤ rm.max_concurrent := by
  obtain ⟨mm, mc, cr⟩ := rm
  dsimp only at h0 hmem ⊢
  subst h0
  constructor
  · rw [acquire_seq_spec mm mc mem hmem N]
  · intro n
    rw [acquire_seq_spec mm mc mem hmem n]
    exact min_le_right n mc

theorem c6_min_of_concurrent_acquires_witness :
    (¬ (100:ℚ) > rm0.max_memory) ∧ rm0.current_requests = 0 ∧
      (acquire_seq 100 rm0 7).2 = min 7 rm0.max_concurrent :=
  ⟨by norm_num [rm0], rfl,
   (c6_min_of_concurrent_acquires rm0 100 7 (by norm_num [rm0]) rfl).1⟩

/-- C7: the claim states the "no speech detected" notice is emitted exactly
when no flushed utterance ever produced non-empty text.  Counterexample on
the code: a session whose single flush produced the non-empty transcript
"hello" (so the buffer is empty when the end marker arrives) still receives
the `stt-no-text-recognized` notice, because the final check
`if not audio_buffer or not result["text"].strip()` short-circuits on the
empty buffer. -/
theorem c7_notice_despite_nonempty_transcript :
    websocket_endpoint engineHello [99 :: loudPCM 16000, [1]] =
      [.runStart, .sttStart, .vadStart, .sttEnd "hello" "en",
       .error "stt-no-text-recognized" "No speech detected"] := by
  unfold websocket_endpoint
  rw [wsLoop_hello_scenario]
  simp [wsFinale]

/-- C8: a binary frame of length exactly 1 terminates the receive loop and
leaves the session state — in particular the audio buffer — unchanged; the
sentinel byte is never appended. -/
theorem c8_end_marker_terminates
    (engine : List Nat → Except String TranscriptionResult)
    (st : WSState) (chunk : List Nat) (h : chunk.length = 1) :
    wsProcessChunk engine st chunk = (st, [], false) := by
  unfold wsProcessChunk
  rw [if_pos h]

theorem c8_end_marker_terminates_witness :
    ([(7 : Nat)].length = 1) ∧
      wsProcessChunk engineHello ⟨[5, 6], true, none⟩ [7] =
        (⟨[5, 6], true, none⟩, [], false) :=
  ⟨rfl, c8_end_marker_terminates engineHello ⟨[5, 6], true, none⟩ [7] rfl⟩

/-- C9: a language hint outside `supported_languages` is dropped silently:
the transcription result is identical to the one with no hint at all, and
no error is produced. -/
theorem c9_unsupported_language_hint_dropped
    (model : List Nat → Option String → EngineResult) (audio : List Nat)
    (lang : String) (h : lang ∉ supported_languages) :
    transcribe model audio (some lang) = transcribe model audio none := by
  unfold transcribe buildOptions
  by_cases h0 : lang = "" <;> simp [h0, h]

theorem c9_unsupported_language_hint_dropped_witness :
    ("xx" ∉ supported_languages) ∧
      transcribe engineStub [1, 2, 3, 4] (some "xx") =
        transcribe engineStub [1, 2, 3, 4] none :=
  ⟨by decide, c9_unsupported_language_hint_dropped engineStub [1, 2, 3, 4] "xx" (by decide)⟩

/-- C10: the `duration` field of every transcription result is the PCM byte
length divided by 16000; since 16-bit 16 kHz audio occupies 32000 bytes per
second, this is twice the actual duration in seconds. -/
theorem c10_duration_twice_actual
    (model : List Nat → Option String → EngineResult) (audio : List Nat)
    (language : Option String) :
    (transcribe model audio language).duration = (audio.length : ℚ) / 16000 ∧
    (transcribe model audio language).duration = 2 * ((audio.length : ℚ) / 32000) := by
  constructor
  · rfl
  · show (audio.length : ℚ) / 16000 = 2 * ((audio.length : ℚ) / 32000)
    ring
